import Mathlib

/-
Shallow embedding of the telemetry core of src/mine_armour_dashboard.py
(class SensorDataManager, lines 602-832).

Modelling conventions:
* Python numeric payload values (ints and floats) are modelled as rationals
  (every value handled by the program, e.g. -1, -1.0, 88, 26.5, is exactly
  representable; Python `==` on such numbers agrees with equality in ℚ).
* `datetime.now()` is modelled by passing the timestamp (a Nat tick) as an
  explicit argument to each mutating operation.
* `collections.deque(maxlen=m)` is modelled as a List whose append evicts
  from the left at capacity (`dequeAppend`).
* Python dicts that the code mutates key-by-key are modelled as
  insertion-ordered association lists (`alistLookup` / `alistSet`), matching
  dict semantics: overwriting a key keeps its position, a new key is
  appended at the end.
* `int(str)` raising ValueError is modelled by `pyInt : String → Option Int`;
  `add_rfid_data` correspondingly returns an `Option` state (`none` models
  the ValueError escaping the method; the raise happens before any mutation,
  so the stored state is unchanged in that case).
-/

/-- Python numbers (int/float payload values) modelled as rationals. -/
abbrev PyNum := ℚ

/-- Append on a `collections.deque` with `maxlen := cap`: at capacity the
oldest (leftmost) element is evicted.  Written via a single `drop` so that
the degenerate `cap = 0` deque also stays empty, as in Python. -/
def dequeAppend (cap : Nat) (xs : List α) (x : α) : List α :=
  if xs.length < cap then xs ++ [x] else (xs ++ [x]).drop (xs.length + 1 - cap)

/-- Lookup in an insertion-ordered association list (Python `dict.get`). -/
def alistLookup : List (String × α) → String → Option α
  | [], _ => none
  | (k', v) :: rest, k => if k' = k then some v else alistLookup rest k

/-- Assignment `d[k] = v` on an insertion-ordered association list: an
existing key keeps its position, a new key is appended at the end. -/
def alistSet : List (String × α) → String → α → List (String × α)
  | [], k, v => [(k, v)]
  | (k', v') :: rest, k, v =>
    if k' = k then (k, v) :: rest else (k', v') :: alistSet rest k v

/-- Contents of the `data['gas_sensors']['latest']` dict after an append
(lines 702-714): the raw (pre-sentinel-translation) values of the batch. -/
structure GasLatest where
  heartRate : PyNum
  spo2 : PyNum
  temperature : PyNum
  humidity : PyNum
  GSR : PyNum
  stress : PyNum
  lat : PyNum
  lon : PyNum
  alt : PyNum
  sat : PyNum
  timestamp : Nat
deriving DecidableEq

/-- `data['gas_sensors']` (lines 605-611); the initial latest dict
holding only a None timestamp is modelled as `none`. -/
structure GasSensors where
  timestamps : List Nat
  latest : Option GasLatest
deriving DecidableEq

/-- `data['health_sensors']` (lines 612-618): heartRate and spo2 undergo
sentinel translation before storage, GSR and stress are stored raw. -/
structure HealthSensors where
  timestamps : List Nat
  heartRate : List (Option PyNum)
  spo2 : List (Option PyNum)
  GSR : List PyNum
  stress : List PyNum
deriving DecidableEq

/-- `data['environmental_sensors']` (lines 619-623). -/
structure EnvironmentalSensors where
  timestamps : List Nat
  temperature : List (Option PyNum)
  humidity : List (Option PyNum)
deriving DecidableEq

/-- `data['gps_data']['latest']` (lines 630-635, 717-722). -/
structure GpsLatest where
  lat : PyNum
  lon : PyNum
  alt : PyNum
  sat : PyNum
deriving DecidableEq

/-- `data['gps_data']` (lines 624-636). -/
structure GpsData where
  timestamps : List Nat
  lat : List PyNum
  lon : List PyNum
  alt : List PyNum
  sat : List PyNum
  latest : GpsLatest
deriving DecidableEq

/-- One element of the `uid_scans` deque (lines 794-800). -/
structure UidScan where
  tag_id : String
  station_id : String
  node_id : String
  checkpoint : String
  timestamp : Nat
deriving DecidableEq

/-- `data['rfid_checkpoints']` (lines 637-657).  `checkpoint_progress`
maps node_id to a dict from checkpoint name to passed timestamp. -/
structure RfidCheckpoints where
  timestamps : List Nat
  uid_scans : List UidScan
  latest_tag : Option String
  latest_station : Option String
  checkpoint_progress : List (String × List (String × Nat))
  active_checkpoints : List (String × List String)
deriving DecidableEq

/-- The whole `SensorDataManager` state (constructor lines 602-658). -/
structure SensorDataManager where
  max_points : Nat
  gas_sensors : GasSensors
  health_sensors : HealthSensors
  environmental_sensors : EnvironmentalSensors
  gps_data : GpsData
  rfid_checkpoints : RfidCheckpoints
deriving DecidableEq

/-- The static `active_checkpoints` table (lines 643-656). -/
def activeCheckpoints : List (String × List String) :=
  [("1298", ["Entry Gate", "Safety Check", "Equipment Bay", "Deep Section"]),
   ("1753", ["Main Tunnel", "Gas Monitor", "Emergency Exit"]),
   ("1456", ["Shaft Entry", "Mining Face", "Ventilation Hub"]),
   ("2001", ["North Entry", "Equipment Room", "Gas Detection", "Exit Portal"]),
   ("2055", ["Central Hub", "Safety Station", "Mining Zone"]),
   ("2089", ["Secondary Tunnel", "Emergency Bay", "Final Check"]),
   ("3012", ["South Gate", "Tool Center", "Deep Shaft", "Return Path"]),
   ("3067", ["Control Point", "Ventilation Room", "Safety Exit"]),
   ("3134", ["Access Tunnel", "Equipment Bay", "Emergency Station"])]

/-- The static `zone_nodes` table (lines 761-765). -/
def zone_nodes : List (String × List String) :=
  [("A", ["1298", "1753", "1456"]),
   ("B", ["2001", "2055", "2089"]),
   ("C", ["3012", "3067", "3134"])]

/-- The static `checkpoint_mapping` table (lines 776-789). -/
def checkpoint_mapping : List (String × String) :=
  [("A1", "Entry Gate"), ("A2", "Safety Check"), ("A3", "Equipment Bay"),
   ("A4", "Deep Section"), ("B1", "North Entry"), ("B2", "Equipment Room"),
   ("B3", "Gas Detection"), ("B4", "Exit Portal"), ("C1", "South Gate"),
   ("C2", "Tool Center"), ("C3", "Deep Shaft"), ("C4", "Return Path")]

/-- `SensorDataManager.__init__(max_points)` (lines 602-658). -/
def mkSensorDataManager (max_points : Nat) : SensorDataManager :=
  { max_points := max_points
    gas_sensors := { timestamps := [], latest := none }
    health_sensors :=
      { timestamps := [], heartRate := [], spo2 := [], GSR := [], stress := [] }
    environmental_sensors := { timestamps := [], temperature := [], humidity := [] }
    gps_data :=
      { timestamps := [], lat := [], lon := [], alt := [], sat := []
        latest := { lat := 0, lon := 0, alt := 0, sat := 0 } }
    rfid_checkpoints :=
      { timestamps := [], uid_scans := [], latest_tag := none
        latest_station := none, checkpoint_progress := []
        active_checkpoints := activeCheckpoints } }

/-- The module-level instance `data_manager = SensorDataManager()` (line 926),
built with the default `max_points=100`. -/
def dataManager : SensorDataManager := mkSensorDataManager 100

/-- An inbound combined-sensor payload for `add_gas_data`: every field is
optional (`none` models a key missing from the JSON dict). -/
structure GasPayload where
  heartRate : Option PyNum
  spo2 : Option PyNum
  GSR : Option PyNum
  stress : Option PyNum
  temperature : Option PyNum
  humidity : Option PyNum
  lat : Option PyNum
  lon : Option PyNum
  alt : Option PyNum
  sat : Option PyNum
deriving DecidableEq

/-- The empty payload (a JSON message with no recognised keys). -/
def emptyPayload : GasPayload :=
  { heartRate := none, spo2 := none, GSR := none, stress := none
    temperature := none, humidity := none, lat := none, lon := none
    alt := none, sat := none }

/-- The `latest` dict written by `add_gas_data` (lines 702-714): a function
of the payload and timestamp only (raw defaulted values, no sentinel
translation). -/
def gasLatestOf (timestamp : Nat) (data : GasPayload) : GasLatest :=
  { heartRate := data.heartRate.getD (-1)
    spo2 := data.spo2.getD (-1)
    temperature := data.temperature.getD (-1)
    humidity := data.humidity.getD (-1)
    GSR := data.GSR.getD 0
    stress := data.stress.getD 0
    lat := data.lat.getD 0
    lon := data.lon.getD 0
    alt := data.alt.getD 0
    sat := data.sat.getD 0
    timestamp := timestamp }

/-- The GPS `latest` dict written by `add_gas_data` (lines 717-722). -/
def gpsLatestOf (data : GasPayload) : GpsLatest :=
  { lat := data.lat.getD 0
    lon := data.lon.getD 0
    alt := data.alt.getD 0
    sat := data.sat.getD 0 }

/-- `SensorDataManager.add_gas_data` (lines 661-724): one combined-sensor
batch is appended to every series of every sensor domain under one
timestamp; heartRate/spo2 translate the sentinel -1 to None, temperature/
humidity translate -1.0 to None, the remaining fields are stored raw. -/
def SensorDataManager.add_gas_data (s : SensorDataManager) (timestamp : Nat)
    (data : GasPayload) : SensorDataManager :=
  let m := s.max_points
  let heartRate := data.heartRate.getD (-1)
  let spo2 := data.spo2.getD (-1)
  let gsr := data.GSR.getD 0
  let stress := data.stress.getD 0
  let temperature := data.temperature.getD (-1)
  let humidity := data.humidity.getD (-1)
  let lat := data.lat.getD 0
  let lon := data.lon.getD 0
  let alt := data.alt.getD 0
  let sat := data.sat.getD 0
  { s with
    gas_sensors :=
      { timestamps := dequeAppend m s.gas_sensors.timestamps timestamp
        latest := some (gasLatestOf timestamp data) }
    health_sensors :=
      { timestamps := dequeAppend m s.health_sensors.timestamps timestamp
        heartRate := dequeAppend m s.health_sensors.heartRate
          (if heartRate = -1 then none else some heartRate)
        spo2 := dequeAppend m s.health_sensors.spo2
          (if spo2 = -1 then none else some spo2)
        GSR := dequeAppend m s.health_sensors.GSR gsr
        stress := dequeAppend m s.health_sensors.stress stress }
    environmental_sensors :=
      { timestamps := dequeAppend m s.environmental_sensors.timestamps timestamp
        temperature := dequeAppend m s.environmental_sensors.temperature
          (if temperature = -1 then none else some temperature)
        humidity := dequeAppend m s.environmental_sensors.humidity
          (if humidity = -1 then none else some humidity) }
    gps_data :=
      { timestamps := dequeAppend m s.gps_data.timestamps timestamp
        lat := dequeAppend m s.gps_data.lat lat
        lon := dequeAppend m s.gps_data.lon lon
        alt := dequeAppend m s.gps_data.alt alt
        sat := dequeAppend m s.gps_data.sat sat
        latest := gpsLatestOf data } }

/-- `get_gas_data` (lines 726-729) in the value-level model; the dict.copy()
shallowness is modelled separately in the heap model below. -/
def SensorDataManager.get_gas_data (s : SensorDataManager) : GasSensors :=
  s.gas_sensors

/-- `get_health_data` (lines 731-734) in the value-level model. -/
def SensorDataManager.get_health_data (s : SensorDataManager) : HealthSensors :=
  s.health_sensors

/-- `get_environmental_data` (lines 736-739) in the value-level model. -/
def SensorDataManager.get_environmental_data (s : SensorDataManager) :
    EnvironmentalSensors :=
  s.environmental_sensors

/-- `get_gps_data` (lines 741-744) in the value-level model. -/
def SensorDataManager.get_gps_data (s : SensorDataManager) : GpsData :=
  s.gps_data

/-- `get_rfid_data` (lines 814-817) in the value-level model. -/
def SensorDataManager.get_rfid_data (s : SensorDataManager) : RfidCheckpoints :=
  s.rfid_checkpoints

/-- An inbound RFID payload for `add_rfid_data`; `none` models a key
missing from the JSON dict (line 752-753 default it to the empty string). -/
structure RfidPayload where
  station_id : Option String
  tag_id : Option String
deriving DecidableEq

/-- Line 757, `station_id[0] if station_id else ''`: the zone is the first
character of the station id, or the empty string for an empty id. -/
def stationZone (station_id : String) : String :=
  ⟨station_id.data.take 1⟩

/-- Line 758, `station_id[1:] if len(station_id) > 1 else '1'`. -/
def stationRemainder (station_id : String) : String :=
  if station_id.data.length > 1 then ⟨station_id.data.drop 1⟩ else "1"

/-- Value of a string of decimal digits. -/
def digitsVal (cs : List Char) : Nat :=
  cs.foldl (fun n c => 10 * n + (c.toNat - 48)) 0

/-- Python `int(s)` on a plain string: an optional sign followed by at
least one decimal digit; anything else raises ValueError (`none`).
(Surrounding whitespace and underscore digit separators, which Python also
accepts, do not occur in this program's station ids and are not modelled.) -/
def pyInt (s : String) : Option Int :=
  match s.data with
  | [] => none
  | '-' :: rest =>
    if rest ≠ [] ∧ rest.all (fun c => c.isDigit)
    then some (-(digitsVal rest : Int)) else none
  | '+' :: rest =>
    if rest ≠ [] ∧ rest.all (fun c => c.isDigit)
    then some (digitsVal rest : Int) else none
  | cs =>
    if cs.all (fun c => c.isDigit) then some (digitsVal cs : Int) else none

/-- Station resolution (lines 755-790): zone letter selects a node list,
`(int(station_num) - 1) % len(nodes)` picks the node (Python `%` on a
positive modulus is `Int.emod`), the full station id is looked up in the
checkpoint table with the "Station <id>" fallback.  `none` models the
ValueError raised by `int` when the zone is mapped but the remainder is
not an integer literal. -/
def resolveStation (station_id : String) : Option (String × String) :=
  let zone := stationZone station_id
  let station_num := stationRemainder station_id
  let node_id? : Option String :=
    match alistLookup zone_nodes zone with
    | some nodes =>
      match pyInt station_num with
      | some n => some (nodes.getD ((n - 1).emod (nodes.length : Int)).toNat "")
      | none => none
    | none => some station_id
  node_id?.map (fun node_id =>
    (node_id, (alistLookup checkpoint_mapping station_id).getD
        ("Station " ++ station_id)))

/-- `SensorDataManager.add_rfid_data` (lines 746-812).  The scan is stored
in history and latest_tag/latest_station, and — when node and checkpoint
are non-empty strings (Python truthiness, line 806) — the progress entry
is assigned, unconditionally overwriting any earlier timestamp (line 810).
`none` models the ValueError from `int` escaping before any mutation. -/
def SensorDataManager.add_rfid_data (s : SensorDataManager) (timestamp : Nat)
    (rfid_data : RfidPayload) : Option SensorDataManager :=
  let station_id := rfid_data.station_id.getD ""
  let tag_id := rfid_data.tag_id.getD ""
  match resolveStation station_id with
  | none => none
  | some (node_id, checkpoint_id) =>
    let r := s.rfid_checkpoints
    let scan : UidScan :=
      { tag_id := tag_id, station_id := station_id, node_id := node_id
        checkpoint := checkpoint_id, timestamp := timestamp }
    let progress :=
      if node_id ≠ "" ∧ checkpoint_id ≠ "" then
        alistSet r.checkpoint_progress node_id
          (alistSet ((alistLookup r.checkpoint_progress node_id).getD [])
            checkpoint_id timestamp)
      else r.checkpoint_progress
    some { s with rfid_checkpoints :=
      { r with
        timestamps := dequeAppend s.max_points r.timestamps timestamp
        uid_scans := dequeAppend s.max_points r.uid_scans scan
        latest_tag := some tag_id
        latest_station := some station_id
        checkpoint_progress := progress } }

/-- `get_checkpoint_status` (lines 819-832). -/
def SensorDataManager.get_checkpoint_status (s : SensorDataManager)
    (node_id : String) : List (String × Bool × Option Nat) :=
  let checkpoints := (alistLookup s.rfid_checkpoints.active_checkpoints node_id).getD []
  let progress := (alistLookup s.rfid_checkpoints.checkpoint_progress node_id).getD []
  checkpoints.map (fun checkpoint =>
    let is_passed := (alistLookup progress checkpoint).isSome
    let timestamp := if is_passed then alistLookup progress checkpoint else none
    (checkpoint, is_passed, timestamp))

/-- The observation `checkpoint_progress.get(n, dict()).get(c)`. -/
def progressLookup (s : SensorDataManager) (n c : String) : Option Nat :=
  alistLookup ((alistLookup s.rfid_checkpoints.checkpoint_progress n).getD []) c

/-- One mutating operation on the store, as dispatched by
`MQTTClient.on_message` (lines 865-883). -/
inductive Op where
  | gas (timestamp : Nat) (data : GasPayload)
  | rfid (timestamp : Nat) (data : RfidPayload)

/-- Apply one operation.  A ValueError escaping `add_rfid_data` is raised
before any mutation (line 770 precedes all writes), so the state is
unchanged in the `none` case — which is also what the catch-all handler in
`on_message` (line 882) produces. -/
def applyOp (s : SensorDataManager) : Op → SensorDataManager
  | .gas t d => s.add_gas_data t d
  | .rfid t d => (s.add_rfid_data t d).getD s

/-- The state after a sequence of inbound messages, starting from the
module-level `data_manager`. -/
def runOps (ops : List Op) : SensorDataManager :=
  ops.foldl applyOp dataManager

/-- Lengths of all fourteen sensor-domain series (gas, health,
environmental, GPS). -/
def sensorSeriesLens (s : SensorDataManager) : List Nat :=
  [s.gas_sensors.timestamps.length,
   s.health_sensors.timestamps.length,
   s.health_sensors.heartRate.length,
   s.health_sensors.spo2.length,
   s.health_sensors.GSR.length,
   s.health_sensors.stress.length,
   s.environmental_sensors.timestamps.length,
   s.environmental_sensors.temperature.length,
   s.environmental_sensors.humidity.length,
   s.gps_data.timestamps.length,
   s.gps_data.lat.length,
   s.gps_data.lon.length,
   s.gps_data.alt.length,
   s.gps_data.sat.length]

/-- Lengths of all series including the two RFID deques. -/
def allSeriesLens (s : SensorDataManager) : List Nat :=
  sensorSeriesLens s ++
    [s.rfid_checkpoints.timestamps.length, s.rfid_checkpoints.uid_scans.length]

/-- Every series holds at most `max_points` samples. -/
def lengthsBounded (s : SensorDataManager) : Prop :=
  s.gas_sensors.timestamps.length ≤ s.max_points ∧
  s.health_sensors.timestamps.length ≤ s.max_points ∧
  s.health_sensors.heartRate.length ≤ s.max_points ∧
  s.health_sensors.spo2.length ≤ s.max_points ∧
  s.health_sensors.GSR.length ≤ s.max_points ∧
  s.health_sensors.stress.length ≤ s.max_points ∧
  s.environmental_sensors.timestamps.length ≤ s.max_points ∧
  s.environmental_sensors.temperature.length ≤ s.max_points ∧
  s.environmental_sensors.humidity.length ≤ s.max_points ∧
  s.gps_data.timestamps.length ≤ s.max_points ∧
  s.gps_data.lat.length ≤ s.max_points ∧
  s.gps_data.lon.length ≤ s.max_points ∧
  s.gps_data.alt.length ≤ s.max_points ∧
  s.gps_data.sat.length ≤ s.max_points ∧
  s.rfid_checkpoints.timestamps.length ≤ s.max_points ∧
  s.rfid_checkpoints.uid_scans.length ≤ s.max_points

/-- Time-alignment invariant: the four domains share one timestamp series
and every value series has the same length as it, so readers may zip
series across domains by index. -/
def seriesAligned (s : SensorDataManager) : Prop :=
  s.health_sensors.timestamps = s.gas_sensors.timestamps ∧
  s.environmental_sensors.timestamps = s.gas_sensors.timestamps ∧
  s.gps_data.timestamps = s.gas_sensors.timestamps ∧
  s.health_sensors.heartRate.length = s.gas_sensors.timestamps.length ∧
  s.health_sensors.spo2.length = s.gas_sensors.timestamps.length ∧
  s.health_sensors.GSR.length = s.gas_sensors.timestamps.length ∧
  s.health_sensors.stress.length = s.gas_sensors.timestamps.length ∧
  s.environmental_sensors.temperature.length = s.gas_sensors.timestamps.length ∧
  s.environmental_sensors.humidity.length = s.gas_sensors.timestamps.length ∧
  s.gps_data.lat.length = s.gas_sensors.timestamps.length ∧
  s.gps_data.lon.length = s.gas_sensors.timestamps.length ∧
  s.gps_data.alt.length = s.gas_sensors.timestamps.length ∧
  s.gps_data.sat.length = s.gas_sensors.timestamps.length

/-
Heap model.  The value-level model above cannot express what `dict.copy()`
(lines 729, 734, 739, 744, 817) shares, so the snapshot claims are settled
against a second translation of the same lines that makes Python object
identity explicit: deques and `latest` dicts live in a heap addressed by
`Ref`s, domain dicts hold `Ref`s, and `dict.copy()` returns a fresh
top-level dict containing the same `Ref`s (modelled as the record of refs).
`add_gas_data` mutates the deque objects in place but installs freshly
allocated `latest` dicts (lines 702, 717 rebind the key rather than
mutating the old dict).
-/

/-- A Python heap address. -/
abbrev Ref := Nat

/-- Update a heap function at one address. -/
def setRef (f : Ref → α) (r : Ref) (a : α) : Ref → α :=
  fun r' => if r' = r then a else f r'

/-- The heap: timestamp deques, value deques (numeric entries wrapped in
`some`, Python None as `none`), gas `latest` dict objects (`none` models
the initial dict holding only a None timestamp) and GPS `latest` dict
objects.  `nextGas`/`nextGps` are the next fresh addresses. -/
structure HHeap where
  dqTime : Ref → List Nat
  dqVal : Ref → List (Option PyNum)
  dGasLatest : Ref → Option GasLatest
  dGpsLatest : Ref → GpsLatest
  nextGas : Ref
  nextGps : Ref

/-- `data['gas_sensors']` as a dict of object references. -/
structure HGasDict where
  timestamps : Ref
  latest : Ref
deriving DecidableEq

/-- `data['health_sensors']` as a dict of object references. -/
structure HHealthDict where
  timestamps : Ref
  heartRate : Ref
  spo2 : Ref
  GSR : Ref
  stress : Ref
deriving DecidableEq

/-- `data['environmental_sensors']` as a dict of object references. -/
structure HEnvDict where
  timestamps : Ref
  temperature : Ref
  humidity : Ref
deriving DecidableEq

/-- `data['gps_data']` as a dict of object references. -/
structure HGpsDict where
  timestamps : Ref
  lat : Ref
  lon : Ref
  alt : Ref
  sat : Ref
  latest : Ref
deriving DecidableEq

/-- The manager in the heap model: the domain dicts hold references into
the heap.  (The RFID domain, untouched by `add_gas_data`, is omitted from
this aliasing model.) -/
structure HManager where
  max_points : Nat
  heap : HHeap
  gas_sensors : HGasDict
  health_sensors : HHealthDict
  environmental_sensors : HEnvDict
  gps_data : HGpsDict

/-- `__init__` in the heap model: fourteen distinct deque objects (four in
the timestamp space, ten in the value space) and the two initial `latest`
dicts at address 0 of their spaces. -/
def hManagerInit (max_points : Nat) : HManager :=
  { max_points := max_points
    heap :=
      { dqTime := fun _ => [], dqVal := fun _ => []
        dGasLatest := fun _ => none
        dGpsLatest := fun _ => { lat := 0, lon := 0, alt := 0, sat := 0 }
        nextGas := 1, nextGps := 1 }
    gas_sensors := { timestamps := 0, latest := 0 }
    health_sensors :=
      { timestamps := 1, heartRate := 0, spo2 := 1, GSR := 2, stress := 3 }
    environmental_sensors := { timestamps := 2, temperature := 4, humidity := 5 }
    gps_data := { timestamps := 3, lat := 6, lon := 7, alt := 8, sat := 9
                  latest := 0 } }

/-- `get_gas_data` in the heap model: `dict.copy()` returns a fresh
top-level dict holding the same object references. -/
def h_get_gas_data (m : HManager) : HGasDict := m.gas_sensors

/-- `get_health_data` in the heap model (shallow `dict.copy()`). -/
def h_get_health_data (m : HManager) : HHealthDict := m.health_sensors

/-- `get_environmental_data` in the heap model (shallow `dict.copy()`). -/
def h_get_environmental_data (m : HManager) : HEnvDict := m.environmental_sensors

/-- `get_gps_data` in the heap model (shallow `dict.copy()`). -/
def h_get_gps_data (m : HManager) : HGpsDict := m.gps_data

/-- `add_gas_data` in the heap model (lines 661-724): each `deque.append`
mutates the deque object in place (heap update at its address, in source
order), then fresh `latest` dicts are allocated and the store's dict keys
are rebound to them. -/
def h_add_gas_data (m : HManager) (timestamp : Nat) (data : GasPayload) :
    HManager :=
  let mp := m.max_points
  let heartRate := data.heartRate.getD (-1)
  let spo2 := data.spo2.getD (-1)
  let gsr := data.GSR.getD 0
  let stress := data.stress.getD 0
  let temperature := data.temperature.getD (-1)
  let humidity := data.humidity.getD (-1)
  let lat := data.lat.getD 0
  let lon := data.lon.getD 0
  let alt := data.alt.getD 0
  let sat := data.sat.getD 0
  let H := m.heap
  let t1 := setRef H.dqTime m.gas_sensors.timestamps
    (dequeAppend mp (H.dqTime m.gas_sensors.timestamps) timestamp)
  let t2 := setRef t1 m.health_sensors.timestamps
    (dequeAppend mp (t1 m.health_sensors.timestamps) timestamp)
  let t3 := setRef t2 m.environmental_sensors.timestamps
    (dequeAppend mp (t2 m.environmental_sensors.timestamps) timestamp)
  let t4 := setRef t3 m.gps_data.timestamps
    (dequeAppend mp (t3 m.gps_data.timestamps) timestamp)
  let v1 := setRef H.dqVal m.health_sensors.heartRate
    (dequeAppend mp (H.dqVal m.health_sensors.heartRate)
      (if heartRate = -1 then none else some heartRate))
  let v2 := setRef v1 m.health_sensors.spo2
    (dequeAppend mp (v1 m.health_sensors.spo2)
      (if spo2 = -1 then none else some spo2))
  let v3 := setRef v2 m.health_sensors.GSR
    (dequeAppend mp (v2 m.health_sensors.GSR) (some gsr))
  let v4 := setRef v3 m.health_sensors.stress
    (dequeAppend mp (v3 m.health_sensors.stress) (some stress))
  let v5 := setRef v4 m.environmental_sensors.temperature
    (dequeAppend mp (v4 m.environmental_sensors.temperature)
      (if temperature = -1 then none else some temperature))
  let v6 := setRef v5 m.environmental_sensors.humidity
    (dequeAppend mp (v5 m.environmental_sensors.humidity)
      (if humidity = -1 then none else some humidity))
  let v7 := setRef v6 m.gps_data.lat
    (dequeAppend mp (v6 m.gps_data.lat) (some lat))
  let v8 := setRef v7 m.gps_data.lon
    (dequeAppend mp (v7 m.gps_data.lon) (some lon))
  let v9 := setRef v8 m.gps_data.alt
    (dequeAppend mp (v8 m.gps_data.alt) (some alt))
  let v10 := setRef v9 m.gps_data.sat
    (dequeAppend mp (v9 m.gps_data.sat) (some sat))
  let gRef := H.nextGas
  let gpRef := H.nextGps
  { m with
    heap :=
      { dqTime := t4, dqVal := v10
        dGasLatest := setRef H.dGasLatest gRef (some (gasLatestOf timestamp data))
        dGpsLatest := setRef H.dGpsLatest gpRef (gpsLatestOf data)
        nextGas := gRef + 1, nextGps := gpRef + 1 }
    gas_sensors := { m.gas_sensors with latest := gRef }
    gps_data := { m.gps_data with latest := gpRef } }

/-- The heap-model state after a sequence of combined-sensor batches. -/
def hRun (ops : List (Nat × GasPayload)) : HManager :=
  ops.foldl (fun m p => h_add_gas_data m p.1 p.2) (hManagerInit 100)

/-- Reachability facts the aliasing theorems need: the deque references of
a reachable heap-model state are the ones laid out by `__init__` (no
operation ever rebinds them), `max_points` is 100, and the currently
installed `latest` dicts live strictly below the allocation frontier. -/
def HInv (m : HManager) : Prop :=
  m.max_points = 100 ∧
  m.gas_sensors.timestamps = 0 ∧
  m.health_sensors = { timestamps := 1, heartRate := 0, spo2 := 1, GSR := 2, stress := 3 } ∧
  m.environmental_sensors = { timestamps := 2, temperature := 4, humidity := 5 } ∧
  m.gps_data.timestamps = 3 ∧ m.gps_data.lat = 6 ∧ m.gps_data.lon = 7 ∧
  m.gps_data.alt = 8 ∧ m.gps_data.sat = 9 ∧
  m.gas_sensors.latest < m.heap.nextGas ∧
  m.gps_data.latest < m.heap.nextGps

/-- The combined-sensor payload of the end-to-end scenario,
a JSON message holding heartRate 88 and temperature 26.5 only. -/
def scenarioPayload : GasPayload :=
  { emptyPayload with heartRate := some 88, temperature := some 26.5 }

/-- Scan payload for station A1. -/
def payA1 : RfidPayload := { station_id := some "A1", tag_id := some "TAG1" }

/-- Scan payload for station A2. -/
def payA2 : RfidPayload := { station_id := some "A2", tag_id := some "TAGX" }

/-- Scan payload for the unmapped station Z9. -/
def payZ9 : RfidPayload := { station_id := some "Z9", tag_id := some "TAG7" }

/-- Scan payload whose zone letter is mapped but whose remainder is not an
integer literal: `int` raises ValueError on it. -/
def payAX : RfidPayload := { station_id := some "AX", tag_id := some "TAG2" }

/-- The state after one A1 scan at tick 1 (used to instantiate theorems). -/
def rfidState1 : SensorDataManager :=
  (dataManager.add_rfid_data 1 payA1).getD dataManager

/-- The state after a second A1 scan at tick 2. -/
def rfidState2 : SensorDataManager :=
  (rfidState1.add_rfid_data 2 payA1).getD rfidState1

/-- Length after a bounded append: one element in, the oldest out at
capacity. -/
theorem length_dequeAppend (cap : Nat) (xs : List α) (x : α) :
    (dequeAppend cap xs x).length = min (xs.length + 1) cap := by
  rw [dequeAppend]
  split <;> simp <;> omega

/-- A bounded append always ends with the new element (capacity permitting). -/
theorem getLast?_dequeAppend (cap : Nat) (xs : List α) (x : α) (h : 0 < cap) :
    (dequeAppend cap xs x).getLast? = some x := by
  rw [dequeAppend]
  split
  · exact List.getLast?_concat xs
  · rw [List.drop_append_of_le_length (by simp; omega)]
    exact List.getLast?_concat _

/-- Unconditional drop form of `dequeAppend`. -/
theorem dequeAppend_eq_drop (cap : Nat) (xs : List α) (x : α) :
    dequeAppend cap xs x = (xs ++ [x]).drop (xs.length + 1 - cap) := by
  rw [dequeAppend]
  split
  · rw [Nat.sub_eq_zero_of_le (by omega), List.drop_zero]
  · rfl

/-- Folding bounded appends over a batch keeps exactly the tail that fits:
the FIFO characterisation of the ring buffer. -/
theorem foldl_dequeAppend (cap : Nat) (L : List α) :
    ∀ acc : List α, acc.length ≤ cap →
      List.foldl (dequeAppend cap) acc L
        = (acc ++ L).drop (acc.length + L.length - cap) := by
  induction L with
  | nil =>
    intro acc h
    simp only [List.foldl_nil, List.append_nil, List.length_nil, Nat.add_zero,
      Nat.sub_eq_zero_of_le h, List.drop_zero]
  | cons y t ih =>
    intro acc h
    rw [List.foldl_cons,
      ih (dequeAppend cap acc y) (by rw [length_dequeAppend]; omega),
      length_dequeAppend, dequeAppend_eq_drop,
      show (acc ++ [y]).drop (acc.length + 1 - cap) ++ t
          = ((acc ++ [y]) ++ t).drop (acc.length + 1 - cap) from
        (List.drop_append_of_le_length (by simp)).symm,
      List.drop_drop, List.append_assoc, List.singleton_append]
    congr 1
    simp only [List.length_cons]
    omega

/-- Looking up the key just assigned. -/
theorem alistLookup_set_self (m : List (String × α)) (k : String) (v : α) :
    alistLookup (alistSet m k v) k = some v := by
  induction m with
  | nil => simp [alistSet, alistLookup]
  | cons p rest ih =>
    obtain ⟨k', v'⟩ := p
    by_cases h : k' = k
    · subst h; simp [alistSet, alistLookup]
    · simp [alistSet, alistLookup, h, ih]

/-- Assignment leaves other keys unchanged. -/
theorem alistLookup_set_ne (m : List (String × α)) (k k' : String) (v : α)
    (h : k' ≠ k) : alistLookup (alistSet m k v) k' = alistLookup m k' := by
  induction m with
  | nil => simp [alistSet, alistLookup, Ne.symm h]
  | cons p rest ih =>
    obtain ⟨k'', v''⟩ := p
    by_cases h2 : k'' = k
    · subst h2
      simp [alistSet, alistLookup, Ne.symm h]
    · simp [alistSet, alistLookup, h2, ih]

/-- `add_gas_data` does not touch the RFID domain. -/
theorem add_gas_rfid_eq (s : SensorDataManager) (t : Nat) (d : GasPayload) :
    (s.add_gas_data t d).rfid_checkpoints = s.rfid_checkpoints := rfl

/-- No operation changes the capacity. -/
theorem applyOp_max_points (s : SensorDataManager) (op : Op) :
    (applyOp s op).max_points = s.max_points := by
  cases op with
  | gas t d => rfl
  | rfid t d =>
    rcases hres : resolveStation (d.station_id.getD "") with _ | ⟨n, c⟩ <;>
      simp [applyOp, SensorDataManager.add_rfid_data, hres]

/-- No operation changes the static checkpoint configuration. -/
theorem applyOp_active_checkpoints (s : SensorDataManager) (op : Op) :
    (applyOp s op).rfid_checkpoints.active_checkpoints
      = s.rfid_checkpoints.active_checkpoints := by
  cases op with
  | gas t d => rfl
  | rfid t d =>
    rcases hres : resolveStation (d.station_id.getD "") with _ | ⟨n, c⟩ <;>
      simp [applyOp, SensorDataManager.add_rfid_data, hres]

/-- A bounded append never exceeds the capacity. -/
theorem length_dequeAppend_le (cap : Nat) (xs : List α) (x : α) :
    (dequeAppend cap xs x).length ≤ cap := by
  rw [length_dequeAppend]; omega

/-- One operation keeps every series within capacity. -/
theorem applyOp_bounded (s : SensorDataManager) (op : Op)
    (h : lengthsBounded s) : lengthsBounded (applyOp s op) := by
  cases op with
  | gas t d =>
    obtain ⟨-, -, -, -, -, -, -, -, -, -, -, -, -, -, h15, h16⟩ := h
    unfold lengthsBounded applyOp SensorDataManager.add_gas_data
    exact ⟨length_dequeAppend_le _ _ _, length_dequeAppend_le _ _ _,
      length_dequeAppend_le _ _ _, length_dequeAppend_le _ _ _,
      length_dequeAppend_le _ _ _, length_dequeAppend_le _ _ _,
      length_dequeAppend_le _ _ _, length_dequeAppend_le _ _ _,
      length_dequeAppend_le _ _ _, length_dequeAppend_le _ _ _,
      length_dequeAppend_le _ _ _, length_dequeAppend_le _ _ _,
      length_dequeAppend_le _ _ _, length_dequeAppend_le _ _ _, h15, h16⟩
  | rfid t d =>
    rcases hres : resolveStation (d.station_id.getD "") with _ | ⟨n, c⟩
    · simpa only [applyOp, SensorDataManager.add_rfid_data, hres,
        Option.getD_none] using h
    · obtain ⟨h1, h2, h3, h4, h5, h6, h7, h8, h9, h10, h11, h12, h13, h14, -, -⟩ := h
      simp only [applyOp, SensorDataManager.add_rfid_data, hres, Option.getD_some]
      exact ⟨h1, h2, h3, h4, h5, h6, h7, h8, h9, h10, h11, h12, h13, h14,
        length_dequeAppend_le _ _ _, length_dequeAppend_le _ _ _⟩

/-- One operation preserves the time-alignment invariant. -/
theorem applyOp_aligned (s : SensorDataManager) (op : Op)
    (h : seriesAligned s) : seriesAligned (applyOp s op) := by
  obtain ⟨h1, h2, h3, h4, h5, h6, h7, h8, h9, h10, h11, h12, h13⟩ := h
  cases op with
  | gas t d =>
    unfold seriesAligned applyOp SensorDataManager.add_gas_data
    refine ⟨?_, ?_, ?_, ?_, ?_, ?_, ?_, ?_, ?_, ?_, ?_, ?_, ?_⟩ <;>
      simp only [length_dequeAppend, h1, h2, h3, h4, h5, h6, h7, h8, h9, h10,
        h11, h12, h13]
  | rfid t d =>
    rcases hres : resolveStation (d.station_id.getD "") with _ | ⟨n, c⟩
    · simpa only [applyOp, SensorDataManager.add_rfid_data, hres,
        Option.getD_none] using
        ⟨h1, h2, h3, h4, h5, h6, h7, h8, h9, h10, h11, h12, h13⟩
    · simp only [applyOp, SensorDataManager.add_rfid_data, hres, Option.getD_some]
      exact ⟨h1, h2, h3, h4, h5, h6, h7, h8, h9, h10, h11, h12, h13⟩

/-- Any property preserved by every operation holds along every run. -/
theorem foldl_applyOp_preserves (P : SensorDataManager → Prop)
    (hstep : ∀ s op, P s → P (applyOp s op)) :
    ∀ (ops : List Op) (s : SensorDataManager), P s → P (ops.foldl applyOp s) := by
  intro ops
  induction ops with
  | nil => intro s hs; exact hs
  | cons op rest ih => intro s hs; exact ih (applyOp s op) (hstep s op hs)

/-- The capacity of every reachable state is the constructor default 100. -/
theorem runOps_max_points (ops : List Op) : (runOps ops).max_points = 100 := by
  have := foldl_applyOp_preserves (fun s => s.max_points = 100)
    (fun s op hs => by
      show (applyOp s op).max_points = 100
      rw [applyOp_max_points]; exact hs) ops dataManager rfl
  exact this

/-- Every reachable state keeps all series within capacity. -/
theorem runOps_bounded (ops : List Op) : lengthsBounded (runOps ops) :=
  foldl_applyOp_preserves lengthsBounded applyOp_bounded ops dataManager
    (by refine ⟨?_, ?_, ?_, ?_, ?_, ?_, ?_, ?_, ?_, ?_, ?_, ?_, ?_, ?_, ?_, ?_⟩ <;>
      simp [dataManager, mkSensorDataManager])

/-- Every reachable state is time-aligned across domains. -/
theorem runOps_aligned (ops : List Op) : seriesAligned (runOps ops) :=
  foldl_applyOp_preserves seriesAligned applyOp_aligned ops dataManager
    (by refine ⟨?_, ?_, ?_, ?_, ?_, ?_, ?_, ?_, ?_, ?_, ?_, ?_, ?_⟩ <;>
      simp [dataManager, mkSensorDataManager])

/-- Every reachable state carries the static checkpoint configuration. -/
theorem runOps_active_checkpoints (ops : List Op) :
    (runOps ops).rfid_checkpoints.active_checkpoints = activeCheckpoints :=
  foldl_applyOp_preserves
    (fun s => s.rfid_checkpoints.active_checkpoints = activeCheckpoints)
    (fun s op hs => by
      show (applyOp s op).rfid_checkpoints.active_checkpoints = activeCheckpoints
      rw [applyOp_active_checkpoints]; exact hs) ops dataManager rfl

/-- No operation removes a recorded checkpoint pass. -/
theorem progressLookup_mono (s : SensorDataManager) (op : Op) (n c : String)
    (h : (progressLookup s n c).isSome) :
    (progressLookup (applyOp s op) n c).isSome := by
  cases op with
  | gas t d => exact h
  | rfid t d =>
    rcases hres : resolveStation (d.station_id.getD "") with _ | ⟨nid, cid⟩
    · simpa only [applyOp, SensorDataManager.add_rfid_data, hres,
        Option.getD_none] using h
    · simp only [applyOp, SensorDataManager.add_rfid_data, hres, Option.getD_some,
        progressLookup] at h ⊢
      split
      · by_cases hn : n = nid
        · subst hn
          rw [alistLookup_set_self]
          by_cases hc : c = cid
          · subst hc
            simp [alistLookup_set_self]
          · rw [Option.getD_some, alistLookup_set_ne _ _ _ _ hc]
            cases hp : alistLookup s.rfid_checkpoints.checkpoint_progress n with
            | none => rw [hp] at h; simp [alistLookup] at h
            | some inner => rw [hp] at h; simpa [hp] using h
        · rw [alistLookup_set_ne _ _ _ _ hn]
          exact h
      · exact h

/-- A successful scan records its own timestamp for the resolved
(node, checkpoint) pair, overwriting any earlier entry (line 810 assigns
unconditionally). -/
theorem add_rfid_progress_set (s s' : SensorDataManager) (t : Nat)
    (pay : RfidPayload) (n c : String)
    (hres : resolveStation (pay.station_id.getD "") = some (n, c))
    (hn : n ≠ "") (hc : c ≠ "")
    (h : s.add_rfid_data t pay = some s') :
    progressLookup s' n c = some t := by
  simp only [SensorDataManager.add_rfid_data, hres, Option.some.injEq] at h
  subst h
  simp only [progressLookup]
  rw [if_pos ⟨hn, hc⟩, alistLookup_set_self, Option.getD_some, alistLookup_set_self]

/-- Claim C9: every series is a bounded FIFO buffer: the store is built
with the default capacity N = 100, after any sequence of inbound
operations no series exceeds `max_points`, and appending cap+1 samples to
an empty bounded series leaves exactly the last cap samples in arrival
order. -/
theorem series_bounded_fifo :
    dataManager.max_points = 100 ∧
    (∀ ops : List Op, (runOps ops).max_points = 100 ∧ lengthsBounded (runOps ops)) ∧
    (∀ (α : Type) (cap : Nat) (L : List α), L.length = cap + 1 →
      List.foldl (dequeAppend cap) [] L = L.drop 1) := by
  refine ⟨rfl, fun ops => ⟨runOps_max_points ops, runOps_bounded ops⟩, ?_⟩
  intro α cap L hL
  rw [foldl_dequeAppend cap L [] (by simp), List.nil_append]
  congr 1
  simp only [List.length_nil]
  omega

/-- Witness for C9 at a concrete capacity-2 buffer and three samples. -/
theorem series_bounded_fifo_witness :
    List.foldl (dequeAppend 2) ([] : List Nat) [7, 8, 9] = [7, 8, 9].drop 1 :=
  series_bounded_fifo.2.2 Nat 2 [7, 8, 9] (by decide)

/-- Claim C8: all four sensor domains stay index-aligned after any
sequence of inbound messages (one shared timestamp series, equal lengths
everywhere), and a single `add_gas_data` batch stamps the same timestamp
at the end of every domain's timestamp series while growing each series
to min(length+1, capacity). -/
theorem batch_time_alignment :
    (∀ ops : List Op, seriesAligned (runOps ops)) ∧
    (∀ (s : SensorDataManager) (t : Nat) (d : GasPayload), 0 < s.max_points →
      (s.add_gas_data t d).gas_sensors.timestamps.getLast? = some t ∧
      (s.add_gas_data t d).health_sensors.timestamps.getLast? = some t ∧
      (s.add_gas_data t d).environmental_sensors.timestamps.getLast? = some t ∧
      (s.add_gas_data t d).gps_data.timestamps.getLast? = some t ∧
      (s.add_gas_data t d).gas_sensors.timestamps.length
        = min (s.gas_sensors.timestamps.length + 1) s.max_points) := by
  refine ⟨runOps_aligned, fun s t d h => ?_⟩
  unfold SensorDataManager.add_gas_data
  exact ⟨getLast?_dequeAppend _ _ _ h, getLast?_dequeAppend _ _ _ h,
    getLast?_dequeAppend _ _ _ h, getLast?_dequeAppend _ _ _ h,
    length_dequeAppend _ _ _⟩

/-- Witness for C8 at the initial store and an empty payload. -/
theorem batch_time_alignment_witness :
    (dataManager.add_gas_data 3 emptyPayload).gas_sensors.timestamps.getLast? = some 3 ∧
    (dataManager.add_gas_data 3 emptyPayload).health_sensors.timestamps.getLast? = some 3 ∧
    (dataManager.add_gas_data 3 emptyPayload).environmental_sensors.timestamps.getLast? = some 3 ∧
    (dataManager.add_gas_data 3 emptyPayload).gps_data.timestamps.getLast? = some 3 ∧
    (dataManager.add_gas_data 3 emptyPayload).gas_sensors.timestamps.length
      = min (dataManager.gas_sensors.timestamps.length + 1) dataManager.max_points :=
  batch_time_alignment.2 dataManager 3 emptyPayload (by decide)

/-- Claim C3: `add_gas_data` is a total function of the payload — every
field missing from the message takes its per-field default — and applies
as one atomic batch: every sensor series gains exactly one sample
(evicting at capacity), both latest snapshots are overwritten with a
value depending only on the payload and timestamp, and nothing else
changes.  (In the source the only fallible call of the method is
`dict.get`, which never raises; cf. the Option-valued `add_rfid_data`.) -/
theorem append_total_and_atomic (s : SensorDataManager) (t : Nat) (d : GasPayload) :
    sensorSeriesLens (s.add_gas_data t d)
      = (sensorSeriesLens s).map (fun l => min (l + 1) s.max_points) ∧
    (s.add_gas_data t d).gas_sensors.latest = some (gasLatestOf t d) ∧
    (s.add_gas_data t d).gps_data.latest = gpsLatestOf d ∧
    (s.add_gas_data t d).rfid_checkpoints = s.rfid_checkpoints := by
  refine ⟨?_, rfl, rfl, rfl⟩
  unfold sensorSeriesLens SensorDataManager.add_gas_data
  simp [length_dequeAppend]

/-- Claim C6: sentinel translation on storage.  heartRate/spo2 equal to -1
and temperature/humidity equal to -1.0 (the per-field defaults when the
key is missing) are stored as None; other values are stored as given;
GSR, stress and the GPS fields are stored raw with default 0. -/
theorem sentinel_translation (s : SensorDataManager) (t : Nat) (d : GasPayload)
    (h : 0 < s.max_points) :
    (s.add_gas_data t d).health_sensors.heartRate.getLast?
      = some (if d.heartRate.getD (-1) = -1 then none else some (d.heartRate.getD (-1))) ∧
    (s.add_gas_data t d).health_sensors.spo2.getLast?
      = some (if d.spo2.getD (-1) = -1 then none else some (d.spo2.getD (-1))) ∧
    (s.add_gas_data t d).environmental_sensors.temperature.getLast?
      = some (if d.temperature.getD (-1) = -1 then none else some (d.temperature.getD (-1))) ∧
    (s.add_gas_data t d).environmental_sensors.humidity.getLast?
      = some (if d.humidity.getD (-1) = -1 then none else some (d.humidity.getD (-1))) ∧
    (s.add_gas_data t d).health_sensors.GSR.getLast? = some (d.GSR.getD 0) ∧
    (s.add_gas_data t d).health_sensors.stress.getLast? = some (d.stress.getD 0) ∧
    (s.add_gas_data t d).gps_data.lat.getLast? = some (d.lat.getD 0) ∧
    (s.add_gas_data t d).gps_data.lon.getLast? = some (d.lon.getD 0) ∧
    (s.add_gas_data t d).gps_data.alt.getLast? = some (d.alt.getD 0) ∧
    (s.add_gas_data t d).gps_data.sat.getLast? = some (d.sat.getD 0) := by
  unfold SensorDataManager.add_gas_data
  exact ⟨getLast?_dequeAppend _ _ _ h, getLast?_dequeAppend _ _ _ h,
    getLast?_dequeAppend _ _ _ h, getLast?_dequeAppend _ _ _ h,
    getLast?_dequeAppend _ _ _ h, getLast?_dequeAppend _ _ _ h,
    getLast?_dequeAppend _ _ _ h, getLast?_dequeAppend _ _ _ h,
    getLast?_dequeAppend _ _ _ h, getLast?_dequeAppend _ _ _ h⟩

/-- Witness for C6: the end-to-end scenario — ingest a payload holding
only heartRate 88 and temperature 26.5; the stored vitals sample reads
heartRate 88 and temperature 26.5 with spo2 and humidity as None. -/
theorem sentinel_translation_witness :
    (dataManager.add_gas_data 5 scenarioPayload).health_sensors.heartRate.getLast?
      = some (some 88) ∧
    (dataManager.add_gas_data 5 scenarioPayload).health_sensors.spo2.getLast?
      = some none ∧
    (dataManager.add_gas_data 5 scenarioPayload).environmental_sensors.temperature.getLast?
      = some (some 26.5) ∧
    (dataManager.add_gas_data 5 scenarioPayload).environmental_sensors.humidity.getLast?
      = some none := by
  obtain ⟨h1, h2, h3, h4, -⟩ :=
    sentinel_translation dataManager 5 scenarioPayload (by decide)
  refine ⟨?_, ?_, ?_, ?_⟩
  · rw [h1]; norm_num [scenarioPayload, emptyPayload]
  · rw [h2]; norm_num [scenarioPayload, emptyPayload]
  · rw [h3]; norm_num [scenarioPayload, emptyPayload]
  · rw [h4]; norm_num [scenarioPayload, emptyPayload]

/-- An if-then-else on `Option.isSome` collapses to the option itself. -/
theorem ite_isSome_eq (o : Option β) : (if o.isSome = true then o else none) = o := by
  cases o <;> simp

/-- Claim C7: `get_checkpoint_status` returns one entry per configured
checkpoint of the node, in configured order; an entry is passed with the
recorded timestamp exactly when the name is a key of the node's progress
dict, and carries false/None otherwise; an unconfigured node yields []. -/
theorem checkpoint_status_complete (s : SensorDataManager) (node_id : String) :
    (s.get_checkpoint_status node_id).map (fun e => e.1)
      = (alistLookup s.rfid_checkpoints.active_checkpoints node_id).getD [] ∧
    (∀ c passed ts, (c, passed, ts) ∈ s.get_checkpoint_status node_id →
      (passed = true ↔ (progressLookup s node_id c).isSome) ∧
      ts = progressLookup s node_id c) ∧
    (alistLookup s.rfid_checkpoints.active_checkpoints node_id = none →
      s.get_checkpoint_status node_id = []) := by
  refine ⟨?_, ?_, ?_⟩
  · unfold SensorDataManager.get_checkpoint_status
    simp only [List.map_map]
    exact List.map_id _
  · intro c passed ts hmem
    unfold SensorDataManager.get_checkpoint_status at hmem
    simp only [List.mem_map] at hmem
    obtain ⟨c0, -, heq⟩ := hmem
    rw [Prod.ext_iff] at heq
    obtain ⟨h1, heq2⟩ := heq
    rw [Prod.ext_iff] at heq2
    obtain ⟨h2, h3⟩ := heq2
    dsimp only at h1 h2 h3
    subst h1
    constructor
    · rw [progressLookup, ← h2]
    · rw [progressLookup, ← h3, ite_isSome_eq]
  · intro hnone
    unfold SensorDataManager.get_checkpoint_status
    rw [hnone]
    rfl

/-- Witness for C7 at node 1298 of the fresh store: the first configured
checkpoint is reported pending with no timestamp. -/
theorem checkpoint_status_complete_witness :
    (false = true ↔ (progressLookup dataManager "1298" "Entry Gate").isSome) ∧
    (none : Option Nat) = progressLookup dataManager "1298" "Entry Gate" :=
  (checkpoint_status_complete dataManager "1298").2.1 "Entry Gate" false none
    (by decide)

/-- Counterexample to claim C2: scanning station A1 twice, at ticks 1 and
then 2, leaves `get_checkpoint_status` reporting the Entry Gate pass at
timestamp 2 — the repeat scan overwrote the first timestamp, so
first-pass-wins fails. -/
theorem repeat_scan_overwrites_counterexample :
    (((dataManager.add_rfid_data 1 payA1).bind
        (fun s => s.add_rfid_data 2 payA1)).map
      (fun s => s.get_checkpoint_status "1298")) =
    some [("Entry Gate", true, some 2), ("Safety Check", false, none),
          ("Equipment Bay", false, none), ("Deep Section", false, none)] := by
  decide

/-- Claim C2 (amended): on a repeat scan resolving to the same
(node, checkpoint) pair the progress timestamp is overwritten — the store
afterwards reports t2, the latest scan's timestamp (last-pass wins), not
t1 — while a checkpoint once marked passed is indeed never un-marked by
any subsequent operation. -/
theorem repeat_scan_last_pass_wins (s s1 s2 : SensorDataManager)
    (pay : RfidPayload) (t1 t2 : Nat) (n c : String)
    (hres : resolveStation (pay.station_id.getD "") = some (n, c))
    (hn : n ≠ "") (hc : c ≠ "")
    (h1 : s.add_rfid_data t1 pay = some s1)
    (h2 : s1.add_rfid_data t2 pay = some s2) :
    progressLookup s1 n c = some t1 ∧
    progressLookup s2 n c = some t2 ∧
    (∀ (u : SensorDataManager) (op : Op) (n' c' : String),
      (progressLookup u n' c').isSome → (progressLookup (applyOp u op) n' c').isSome) :=
  ⟨add_rfid_progress_set s s1 t1 pay n c hres hn hc h1,
   add_rfid_progress_set s1 s2 t2 pay n c hres hn hc h2,
   fun u op n' c' => progressLookup_mono u op n' c'⟩

/-- Witness for the amended C2 at two concrete A1 scans. -/
theorem repeat_scan_last_pass_wins_witness :
    progressLookup rfidState1 "1298" "Entry Gate" = some 1 ∧
    progressLookup rfidState2 "1298" "Entry Gate" = some 2 :=
  ⟨(repeat_scan_last_pass_wins dataManager rfidState1 rfidState2 payA1 1 2
      "1298" "Entry Gate" (by decide) (by decide) (by decide) (by rfl) (by rfl)).1,
   (repeat_scan_last_pass_wins dataManager rfidState1 rfidState2 payA1 1 2
      "1298" "Entry Gate" (by decide) (by decide) (by decide) (by rfl) (by rfl)).2.1⟩

/-- A successful scan whose resolved checkpoint name is not among the
resolved node's configured checkpoints leaves every node's status
unchanged. -/
theorem add_rfid_status_eq (s s' : SensorDataManager) (t : Nat)
    (pay : RfidPayload) (nid cid : String) (n : String)
    (hres : resolveStation (pay.station_id.getD "") = some (nid, cid))
    (h : s.add_rfid_data t pay = some s')
    (hnotin : cid ∉ (alistLookup s.rfid_checkpoints.active_checkpoints nid).getD []) :
    s'.get_checkpoint_status n = s.get_checkpoint_status n := by
  simp only [SensorDataManager.add_rfid_data, hres, Option.some.injEq] at h
  subst h
  unfold SensorDataManager.get_checkpoint_status
  refine List.map_congr_left ?_
  intro c hmem
  by_cases hcond : nid ≠ "" ∧ cid ≠ ""
  · rw [if_pos hcond]
    by_cases hn : n = nid
    · subst hn
      rw [alistLookup_set_self, Option.getD_some]
      have hc : c ≠ cid := fun hceq => hnotin (hceq ▸ hmem)
      rw [alistLookup_set_ne _ _ _ _ hc]
    · rw [alistLookup_set_ne _ _ _ _ hn]
  · rw [if_neg hcond]

/-- Claim C10: station A2 resolves to node 1753 with checkpoint name
Safety Check, which is not among node 1753's configured checkpoints; the
scan updates checkpoint progress, the scan history and the latest
tag/station, yet leaves `get_checkpoint_status` of every node unchanged,
because status only reports names from the static configuration. -/
theorem scan_checkpoint_not_in_config :
    resolveStation "A2" = some ("1753", "Safety Check") ∧
    "Safety Check" ∉ (alistLookup activeCheckpoints "1753").getD [] ∧
    (∀ (s : SensorDataManager) (t : Nat) (n : String),
      s.rfid_checkpoints.active_checkpoints = activeCheckpoints →
      (s.add_rfid_data t payA2).map (fun s' => s'.get_checkpoint_status n)
        = some (s.get_checkpoint_status n)) ∧
    (∀ (s s' : SensorDataManager) (t : Nat),
      s.add_rfid_data t payA2 = some s' → 0 < s.max_points →
      progressLookup s' "1753" "Safety Check" = some t ∧
      s'.rfid_checkpoints.latest_tag = some "TAGX" ∧
      s'.rfid_checkpoints.latest_station = some "A2" ∧
      s'.rfid_checkpoints.uid_scans.getLast?
        = some { tag_id := "TAGX", station_id := "A2", node_id := "1753"
                 checkpoint := "Safety Check", timestamp := t }) := by
  have hres : resolveStation (payA2.station_id.getD "")
      = some ("1753", "Safety Check") := by decide
  refine ⟨by decide, by decide, ?_, ?_⟩
  · intro s t n hac
    have hsome : s.add_rfid_data t payA2 =
        some ((s.add_rfid_data t payA2).getD s) := by
      simp only [SensorDataManager.add_rfid_data, hres, Option.getD_some]
    rw [hsome, Option.map_some', Option.some.injEq]
    exact add_rfid_status_eq s _ t payA2 "1753" "Safety Check" n hres hsome
      (by rw [hac]; decide)
  · intro s s' t h hcap
    refine ⟨add_rfid_progress_set s s' t payA2 "1753" "Safety Check" hres
      (by decide) (by decide) h, ?_, ?_, ?_⟩ <;>
    · simp only [SensorDataManager.add_rfid_data, hres, Option.some.injEq] at h
      subst h
      first
        | rfl
        | exact getLast?_dequeAppend _ _ _ hcap

/-- Witness for C10 at the fresh store: the A2 scan leaves node 1753's
status unchanged even though it records a Safety Check pass for it. -/
theorem scan_checkpoint_not_in_config_witness :
    (dataManager.add_rfid_data 0 payA2).map
        (fun s' => s'.get_checkpoint_status "1753")
      = some (dataManager.get_checkpoint_status "1753") :=
  scan_checkpoint_not_in_config.2.2.1 dataManager 0 "1753" rfl

/-- Counterexample to claim C4: station id AX has the mapped zone letter A
but the remainder X is not an integer literal, so `int` raises ValueError
and `add_rfid_data` fails (modelled as `none`) — station resolution is not
total over every stationId string. -/
theorem station_resolution_raises_counterexample :
    dataManager.add_rfid_data 0 payAX = none := by decide

/-- Claim C4 (amended): for every stationId whose zone letter is unmapped,
resolution never raises and uses the documented fallbacks — the raw
stationId becomes the node identifier and the checkpoint name falls back
to "Station " + stationId when unmapped — and the scan is recorded; but
when the zone letter is mapped and the remainder of the stationId is not
an integer literal, `add_rfid_data` raises ValueError. -/
theorem station_resolution_fallback (sid : String) (t : Nat)
    (s : SensorDataManager) (pay : RfidPayload)
    (hpay : pay.station_id = some sid)
    (hz : alistLookup zone_nodes (stationZone sid) = none) :
    resolveStation sid
      = some (sid, (alistLookup checkpoint_mapping sid).getD ("Station " ++ sid)) ∧
    (s.add_rfid_data t pay).isSome := by
  have hres : resolveStation sid
      = some (sid, (alistLookup checkpoint_mapping sid).getD ("Station " ++ sid)) := by
    simp only [resolveStation, hz, Option.map_some']
  refine ⟨hres, ?_⟩
  simp only [SensorDataManager.add_rfid_data, hpay, Option.getD_some, hres,
    Option.isSome_some]

/-- Witness for the amended C4 at the unmapped station Z9. -/
theorem station_resolution_fallback_witness :
    resolveStation "Z9"
      = some ("Z9", (alistLookup checkpoint_mapping "Z9").getD ("Station " ++ "Z9")) ∧
    (dataManager.add_rfid_data 4 payZ9).isSome :=
  station_resolution_fallback "Z9" 4 dataManager payZ9 rfl (by decide)

/-- Counterexample to claim C5: station id AY has first character A, a
configured zone letter, yet resolution selects no node (ValueError);
and the checkpoint resolved for A5 is the fallback "Station A5", not a
static-table entry. -/
theorem mapped_zone_resolution_counterexample :
    resolveStation "AY" = none ∧
    resolveStation "A5" = some ("1753", "Station A5") := by decide

/-- Claim C5 (amended): for every stationId whose first character is a
configured zone letter and whose remainder parses as an integer literal,
resolution selects the node at index (stationNum - 1) mod len(zoneNodes)
of that zone's node list (a valid index), the remainder defaults to "1"
when the stationId has at most one character, the checkpoint name is the
static table entry for the full stationId when one exists and the
"Station " fallback otherwise, and the empty stationId takes the
unmapped-zone fallback path. -/
theorem mapped_zone_resolution (sid : String) (nodes : List String) (k : Int)
    (hz : alistLookup zone_nodes (stationZone sid) = some nodes)
    (hp : pyInt (stationRemainder sid) = some k) :
    resolveStation sid
      = some (nodes.getD ((k - 1).emod (nodes.length : Int)).toNat "",
              (alistLookup checkpoint_mapping sid).getD ("Station " ++ sid)) ∧
    ((k - 1).emod (nodes.length : Int)).toNat < nodes.length ∧
    (sid.data.length ≤ 1 → stationRemainder sid = "1") ∧
    resolveStation "" = some ("", "Station ") := by
  have hlen : nodes.length = 3 := by
    simp only [zone_nodes, alistLookup] at hz
    split_ifs at hz <;> (injection hz with hz2; subst hz2; rfl)
  refine ⟨?_, ?_, ?_, by decide⟩
  · simp only [resolveStation, hz, hp, Option.map_some']
  · have h0 : (0 : Int) ≤ (k - 1).emod (nodes.length : Int) :=
      Int.emod_nonneg _ (by rw [hlen]; decide)
    have h1 : (k - 1).emod (nodes.length : Int) < (nodes.length : Int) :=
      Int.emod_lt_of_pos _ (by rw [hlen]; decide)
    omega
  · intro hle
    unfold stationRemainder
    rw [if_neg (by omega)]

/-- Witness for the amended C5: A1 resolves to zone A's first node with
the Entry Gate checkpoint; A5 resolves to zone A's second node. -/
theorem mapped_zone_resolution_witness :
    resolveStation "A1" = some ("1298", "Entry Gate") ∧
    resolveStation "A5" = some ("1753", "Station A5") := by
  have h1 := mapped_zone_resolution "A1" ["1298", "1753", "1456"] 1
    (by decide) (by decide)
  have h5 := mapped_zone_resolution "A5" ["1298", "1753", "1456"] 5
    (by decide) (by decide)
  exact ⟨by rw [h1.1]; decide, by rw [h5.1]; decide⟩

/-- `h_add_gas_data` keeps the reachability facts: it never rebinds the
deque references and allocates the new latest dicts at the frontier. -/
theorem h_add_HInv (m : HManager) (t : Nat) (d : GasPayload) (h : HInv m) :
    HInv (h_add_gas_data m t d) := by
  obtain ⟨h1, h2, h3, h4, h5, h6, h7, h8, h9, h10, h11⟩ := h
  exact ⟨h1, h2, h3, h4, h5, h6, h7, h8, h9, by simp [h_add_gas_data],
    by simp [h_add_gas_data]⟩

/-- Every heap-model state reachable from the fresh store satisfies the
reachability facts. -/
theorem hRun_HInv (ops : List (Nat × GasPayload)) : HInv (hRun ops) := by
  have hgen : ∀ (l : List (Nat × GasPayload)) (m : HManager), HInv m →
      HInv (l.foldl (fun m p => h_add_gas_data m p.1 p.2) m) := by
    intro l
    induction l with
    | nil => intro m hm; exact hm
    | cons p rest ih => intro m hm; exact ih _ (h_add_HInv m p.1 p.2 hm)
  exact hgen ops (hManagerInit 100)
    ⟨rfl, rfl, rfl, rfl, rfl, rfl, rfl, rfl, rfl, by decide, by decide⟩

/-- Counterexample to claim C1: take a health snapshot of the fresh store,
then append a batch with heartRate 88.  The heartRate series observed
through the snapshot's own reference changes from [] to [some 88]: the
`dict.copy()` snapshot shares its deques with the store. -/
theorem snapshot_not_deep_counterexample :
    (hManagerInit 100).heap.dqVal (h_get_health_data (hManagerInit 100)).heartRate
      = [] ∧
    (h_add_gas_data (hManagerInit 100) 1 scenarioPayload).heap.dqVal
        (h_get_health_data (hManagerInit 100)).heartRate
      = [some 88] := by
  constructor
  · rfl
  · norm_num [h_add_gas_data, hManagerInit, h_get_health_data, setRef,
      dequeAppend, scenarioPayload, emptyPayload]

/-- Claim C1 (amended): the snapshot operations return a shallow
`dict.copy()`: only the top-level domain dict is fresh, the series deques
are shared with the store, so an `add_gas_data` executed after the
snapshot mutates the series contents observed through that snapshot
(appending the batch sample to the shared deque); the `latest` dict
observed through a previously taken gas snapshot is, however, unchanged,
because the append installs a freshly allocated dict instead of mutating
the old one. -/
theorem snapshot_shallow_copy :
    (∀ ops : List (Nat × GasPayload), HInv (hRun ops)) ∧
    (∀ (m : HManager) (t : Nat) (d : GasPayload), HInv m →
      (h_add_gas_data m t d).heap.dqVal (h_get_health_data m).heartRate
        = dequeAppend 100 (m.heap.dqVal (h_get_health_data m).heartRate)
            (if d.heartRate.getD (-1) = -1 then none
             else some (d.heartRate.getD (-1))) ∧
      (h_add_gas_data m t d).heap.dqTime (h_get_health_data m).timestamps
        = dequeAppend 100 (m.heap.dqTime (h_get_health_data m).timestamps) t ∧
      (h_add_gas_data m t d).heap.dGasLatest (h_get_gas_data m).latest
        = m.heap.dGasLatest (h_get_gas_data m).latest ∧
      (h_add_gas_data m t d).gas_sensors.latest ≠ (h_get_gas_data m).latest) := by
  refine ⟨hRun_HInv, ?_⟩
  intro m t d hm
  obtain ⟨hmp, hgts, hh, he, hg1, hg2, hg3, hg4, hg5, hlt1, hlt2⟩ := hm
  refine ⟨?_, ?_, ?_, ?_⟩
  · simp only [h_get_health_data, hh, h_add_gas_data, hgts, he, hg1, hg2, hg3,
      hg4, hg5, hmp, setRef]
    norm_num
  · simp only [h_get_health_data, hh, h_add_gas_data, hgts, he, hg1, hg2, hg3,
      hg4, hg5, hmp, setRef]
    norm_num
  · have hne : m.gas_sensors.latest ≠ m.heap.nextGas := Nat.ne_of_lt hlt1
    simp [h_get_gas_data, h_add_gas_data, setRef, hne]
  · have hne : m.heap.nextGas ≠ m.gas_sensors.latest := (Nat.ne_of_lt hlt1).symm
    simp [h_get_gas_data, h_add_gas_data, hne]

/-- Witness for the amended C1 at the fresh store: the gas snapshot's
latest dict is untouched by a later append, whose new latest dict lives at
a different address. -/
theorem snapshot_shallow_copy_witness :
    (h_add_gas_data (hManagerInit 100) 2 emptyPayload).heap.dGasLatest
        (h_get_gas_data (hManagerInit 100)).latest
      = (hManagerInit 100).heap.dGasLatest (h_get_gas_data (hManagerInit 100)).latest ∧
    (h_add_gas_data (hManagerInit 100) 2 emptyPayload).gas_sensors.latest
      ≠ (h_get_gas_data (hManagerInit 100)).latest :=
  ⟨(snapshot_shallow_copy.2 (hManagerInit 100) 2 emptyPayload
      (snapshot_shallow_copy.1 [])).2.2.1,
   (snapshot_shallow_copy.2 (hManagerInit 100) 2 emptyPayload
      (snapshot_shallow_copy.1 [])).2.2.2⟩
